import Mathlib

/-!
Shallow embedding of the tenant-isolation and authorization pipeline of the
`lms-loopback-be` backend (LoopBack 4 / TypeScript), together with theorems
settling the specification claims about it.

Conventions used throughout the embedding:
* TypeScript strings are Lean `String`s; JavaScript truthiness of a string is
  `s ≠ ""`, and a `string | undefined` value is an `Option String` whose
  truthiness is `isSome` together with nonemptiness of the wrapped string.
* Fallible code (`throw new HttpErrors...`) is embedded as `Except HttpErr α`.
* `String.prototype.toLowerCase` is modelled per character by `Char.toLower`;
  the tenant-id alphabet (`[a-zA-Z0-9_-]`) is ASCII, where the two agree.
* The `jsonwebtoken` library is an external collaborator: a signed token is a
  symbolic `Token` record carrying its decoded payload, the secret it was
  signed with, and an expiry flag; `jwt.verify` checks the secret and expiry
  and returns the payload.  Token *strings* are related to symbolic tokens by
  an ambient decoding map `String → Option Token` (`none` meaning the string
  is not a well-formed signed JWT).
-/

/-- HTTP error taxonomy used by the code (`@loopback/rest` `HttpErrors`):
constructor = status class, argument = the message the code throws. -/
inductive HttpErr where
  | badRequest (msg : String)
  | unauthorized (msg : String)
  | forbidden (msg : String)
  | notFound (msg : String)
  deriving DecidableEq, Repr

instance {ε α : Type} [DecidableEq ε] [DecidableEq α] : DecidableEq (Except ε α) := fun a b =>
  match a, b with
  | .error e1, .error e2 =>
    if h : e1 = e2 then .isTrue (by rw [h])
    else .isFalse (by intro hc; cases hc; exact h rfl)
  | .error _, .ok _ => .isFalse (by intro hc; cases hc)
  | .ok _, .error _ => .isFalse (by intro hc; cases hc)
  | .ok a1, .ok a2 =>
    if h : a1 = a2 then .isTrue (by rw [h])
    else .isFalse (by intro hc; cases hc; exact h rfl)

/-! ### JavaScript string primitives

`String.prototype.split`, `.trim` and `.toLowerCase` are modelled
structurally over the character list (their behavior on the ASCII data this
code handles), so that concrete inputs evaluate inside the kernel. -/

/-- Split of a character list on a single separator character: splitting
the empty list yields one empty part, matching the JS behavior. -/
def splitChar (sep : Char) : List Char → List (List Char)
  | [] => [[]]
  | c :: rest =>
    let r := splitChar sep rest
    if c = sep then [] :: r
    else
      match r with
      | [] => [[c]]
      | h :: t => (c :: h) :: t

/-- JS `s.split(sep)` for a one-character separator. -/
def jsSplit (s : String) (sep : Char) : List String :=
  (splitChar sep s.data).map String.mk

/-- JS `s.trim()`: strip leading and trailing whitespace. -/
def jsTrim (s : String) : String :=
  ⟨((s.data.dropWhile Char.isWhitespace).reverse.dropWhile
      Char.isWhitespace).reverse⟩

/-- JS `s.toLowerCase()` on ASCII data, per character. -/
def jsToLower (s : String) : String :=
  ⟨s.data.map Char.toLower⟩

/-! ## Tenant resolver (`src/utils/tenant.ts`) -/

/-- One character of `TENANT_ID_PATTERN = /^[a-zA-Z0-9_-]+$/`. -/
def isTenantIdChar (c : Char) : Bool :=
  (('a' ≤ c ∧ c ≤ 'z') ∨ ('A' ≤ c ∧ c ≤ 'Z') ∨ ('0' ≤ c ∧ c ≤ '9')
    ∨ c = '_' ∨ c = '-' : Prop)

/-- Test `TENANT_ID_PATTERN.test tenantId`: nonempty and all characters allowed. -/
def tenantIdPatternTest (s : String) : Bool :=
  s ≠ "" && s.data.all isTenantIdChar

/-- One character of `sanitizeTenantId`: replace each hyphen with an
underscore, then `toLowerCase()`, composed per character. -/
def sanitizeChar (c : Char) : Char :=
  (if c = '-' then '_' else c).toLower

/-- Function `sanitizeTenantId(tenantId)`: hyphens to underscores, then lower-cased. -/
def sanitizeTenantId (s : String) : String :=
  ⟨s.data.map sanitizeChar⟩

/-- Function `extractTenantId(request)` given the effective `x-tenant-id` header value
(`none` when the header is absent; the first element is already selected when
the header was multi-valued). -/
def extractTenantId (header : Option String) : Except HttpErr String :=
  match header with
  | none => .error (.badRequest "Missing x-tenant-id header")
  | some tenantId =>
    if jsTrim tenantId = "" then
      .error (.badRequest "Missing x-tenant-id header")
    else if ¬ tenantIdPatternTest tenantId then
      .error (.badRequest "Invalid tenant identifier")
    else
      .ok (jsTrim tenantId)

/-! ## Roles and the authorizer (`src/auth/authorization.provider.ts`) -/

inductive UserRole where
  | superAdmin
  | tenantAdmin
  | instructor
  | student
  deriving DecidableEq, Repr

/-- Map `ROLE_HIERARCHY`. -/
def ROLE_HIERARCHY : UserRole → Nat
  | .superAdmin => 4
  | .tenantAdmin => 3
  | .instructor => 2
  | .student => 1

inductive AuthorizationDecision where
  | allow
  | deny
  deriving DecidableEq, Repr

/-- The fields of the first principal (`LmsUserProfile`) that the authorizer
reads.  `roles` is optional because the code guards it with `?.`/`?? []`. -/
structure Principal where
  tenantId : String
  roles : Option (List UserRole)
  deriving DecidableEq, Repr

/-- Method `RoleBasedAuthorizationProvider.isRoleAllowed`. -/
def isRoleAllowed (userRoles allowedRoles : List UserRole) : Bool :=
  let maxUserRole := userRoles.foldl (fun acc role => max acc (ROLE_HIERARCHY role)) 0
  allowedRoles.any fun role => maxUserRole ≥ ROLE_HIERARCHY role

/-- Method `RoleBasedAuthorizationProvider.authorize`, as a function of the first
principal (`none` when absent), the optional invocation tenant binding, and
`metadata.allowedRoles ?? []`. -/
def authorize (principal : Option Principal) (invocationTenant : Option String)
    (allowedRoles : List UserRole) : AuthorizationDecision :=
  match principal with
  | none => .deny
  | some p =>
    if (p.roles.getD []).contains .superAdmin then
      .allow
    else if (match invocationTenant with
             | some t => t ≠ "" && p.tenantId ≠ "" && p.tenantId ≠ t
             | none => false) then
      .deny
    else if allowedRoles.isEmpty then
      .allow
    else if isRoleAllowed (p.roles.getD []) allowedRoles then
      .allow
    else
      .deny

/-! ## JWT model and the token service (`src/auth/token.service.ts`) -/

inductive TokenType where
  | access
  | refresh
  deriving DecidableEq, Repr

/-- The decoded claims object (`JwtPayload`).  `tenantId` is a string whose
JavaScript truthiness is nonemptiness; `roles`, `name`, `permissions` and
`tokenType` are optional in the decoded JSON. -/
structure JwtPayload where
  sub : String
  email : String
  tenantId : String
  roles : Option (List UserRole)
  name : Option String
  permissions : Option (List String)
  tokenType : Option TokenType
  deriving DecidableEq, Repr

/-- What `jwt.verify` can hand back on success: a string payload or a decoded
claims object. -/
inductive Decoded where
  | str (s : String)
  | obj (p : JwtPayload)
  deriving DecidableEq, Repr

/-- A symbolic signed token: the payload it decodes to, the secret it was
signed with, and whether it has expired (time is abstracted to this flag). -/
structure Token where
  payload : Decoded
  secret : String
  expired : Bool
  deriving DecidableEq, Repr

/-- Library call `jwt.verify(token, secret)` on a symbolic token: fails on signature
mismatch or expiry, otherwise returns the decoded payload. -/
def jwtVerify (t : Token) (secret : String) : Except Unit Decoded :=
  if t.secret ≠ secret then .error ()
  else if t.expired then .error ()
  else .ok t.payload

/-- Library call `jwt.sign` with an expiry option: a fresh, unexpired token. -/
def jwtSign (p : JwtPayload) (secret : String) : Token :=
  { payload := .obj p, secret := secret, expired := false }

/-- The user profile (`LmsUserProfile`) the token service signs for. -/
structure LmsUserProfile where
  id : String
  email : String
  tenantId : String
  roles : List UserRole
  permissions : Option (List String)
  name : Option String
  deriving DecidableEq, Repr

/-- The configured state of `JwtTokenService` (constructor fields). -/
structure JwtTokenService where
  tokenSecret : String
  tokenExpiresIn : String
  refreshSecret : String
  refreshExpiresIn : String
  deriving DecidableEq, Repr

/-- Constructor of `JwtTokenService`: rejects an unconfigured (empty) secret. -/
def mkJwtTokenService (tokenSecret tokenExpiresIn refreshSecret
    refreshExpiresIn : String) : Except String JwtTokenService :=
  if tokenSecret = "" then .error "JWT secret is not configured"
  else if refreshSecret = "" then .error "JWT refresh secret is not configured"
  else .ok ⟨tokenSecret, tokenExpiresIn, refreshSecret, refreshExpiresIn⟩

/-- Shape `TokenResponse`, with the two tokens kept symbolic. -/
structure TokenResponse where
  accessToken : Token
  refreshToken : Token
  expiresIn : String
  refreshExpiresIn : String
  deriving DecidableEq, Repr

/-- Method `JwtTokenService.buildPayload`. -/
def buildPayload (profile : LmsUserProfile) (tokenType : TokenType) : JwtPayload :=
  { sub := profile.id
    email := profile.email
    tenantId := profile.tenantId
    roles := some profile.roles
    name := profile.name
    permissions := profile.permissions
    tokenType := some tokenType }

/-- Method `JwtTokenService.generateTokenPair`. -/
def generateTokenPair (svc : JwtTokenService) (profile : LmsUserProfile) :
    TokenResponse :=
  { accessToken := jwtSign (buildPayload profile .access) svc.tokenSecret
    refreshToken := jwtSign (buildPayload profile .refresh) svc.refreshSecret
    expiresIn := svc.tokenExpiresIn
    refreshExpiresIn := svc.refreshExpiresIn }

/-- The body of the `try` block of `JwtTokenService.verifyToken`, with the
distinct errors it throws internally. -/
def verifyTokenInner (token : Token) (secret : String) (expectedType : TokenType) :
    Except HttpErr JwtPayload :=
  match jwtVerify token secret with
  | .error _ => .error (.unauthorized "jwt verification failed")
  | .ok (.str _) => .error (.unauthorized "Invalid token payload")
  | .ok (.obj payload) =>
    if payload.tokenType ≠ some expectedType then
      .error (.unauthorized "Token type mismatch")
    else
      .ok payload

/-- Method `JwtTokenService.verifyToken`: the surrounding `catch` collapses every
failure of the `try` body into one opaque `Unauthorized` error. -/
def verifyToken (token : Token) (secret : String) (expectedType : TokenType) :
    Except HttpErr JwtPayload :=
  match verifyTokenInner token secret expectedType with
  | .error _ => .error (.unauthorized "Invalid or expired token")
  | .ok payload => .ok payload

/-- Method `JwtTokenService.verifyAccessToken`. -/
def verifyAccessToken (svc : JwtTokenService) (token : Token) :
    Except HttpErr JwtPayload :=
  verifyToken token svc.tokenSecret .access

/-- Method `JwtTokenService.verifyRefreshToken`. -/
def verifyRefreshToken (svc : JwtTokenService) (token : Token) :
    Except HttpErr JwtPayload :=
  verifyToken token svc.refreshSecret .refresh

/-! ## Per-request authentication strategy (`src/auth/jwt.strategy.ts`) -/

/-- The request headers the strategy reads (each already reduced to its
effective single value; logging-only headers are omitted). -/
structure StrategyRequest where
  authorization : Option String
  tenantHeader : Option String

/-- Method `JWTStrategy.extractToken`: `none` when the header is absent, error on a
non-`Bearer` shape, otherwise the token string. -/
def extractToken (authorization : Option String) :
    Except HttpErr (Option String) :=
  match authorization with
  | none => .ok none
  | some authHeader =>
    let parts := jsSplit authHeader ' '
    if parts.length ≠ 2 || parts.getD 0 "" ≠ "Bearer" then
      .error (.unauthorized "Authorization header is not of type Bearer")
    else
      .ok (some (parts.getD 1 ""))

/-- Method `JWTStrategy.authenticate`.  Parameter `jwtOf` is the ambient decoding of token
strings to symbolic tokens (`none` = not a well-formed signed JWTp);
`jwtSecret` is the bound access-token secret.  The string-payload throw
happens inside the `try`, so the surrounding `catch` replaces it with the
generic `Invalid access token` error. -/
def authenticate (jwtOf : String → Option Token) (jwtSecret : String)
    (req : StrategyRequest) : Except HttpErr LmsUserProfile :=
  match extractToken req.authorization with
  | .error e => .error e
  | .ok none => .error (.unauthorized "Authorization header not found")
  | .ok (some tokenStr) =>
    let decoded : Except Unit Decoded :=
      match jwtOf tokenStr with
      | none => .error ()
      | some t => jwtVerify t jwtSecret
    match decoded with
    | .error _ => .error (.unauthorized "Invalid access token")
    | .ok (.str _) => .error (.unauthorized "Invalid access token")
    | .ok (.obj payload) =>
      match extractTenantId req.tenantHeader with
      | .error e => .error e
      | .ok tenantIdFromHeader =>
        let normalizedHeaderTenant := sanitizeTenantId tenantIdFromHeader
        let normalizedPayloadTenant : Option String :=
          if payload.tenantId ≠ "" then some (sanitizeTenantId payload.tenantId)
          else none
        if (match normalizedPayloadTenant with
            | some pt => pt != normalizedHeaderTenant
            | none => false) then
          .error (.forbidden "Token tenant mismatch")
        else
          .ok { id := payload.sub
                email := payload.email
                tenantId := normalizedPayloadTenant.getD normalizedHeaderTenant
                roles := payload.roles.getD [.student]
                name := some (payload.name.getD payload.email)
                permissions := payload.permissions }

/-! ## Password hasher (`src/auth/password.service.ts`, `BcryptHasher`) -/

/-- Method `BcryptHasher.hashPassword`.  The bcrypt primitive (`genSalt` + `hash`)
is an external collaborator, abstracted as `bhash rounds plain`. -/
def hashPassword (bhash : Nat → String → String) (rounds : Nat)
    (plain : String) : Except String String :=
  if plain = "" then .error "Password cannot be empty"
  else .ok (bhash rounds plain)

/-- Method `BcryptHasher.comparePassword`, with bcrypt's `compare` abstracted as
`bcompare`.  Total: it returns a `Bool` and never throws. -/
def comparePassword (bcompare : String → String → Bool)
    (plain hashed : String) : Bool :=
  if plain = "" || hashed = "" then false
  else bcompare plain hashed

/-! ## Per-tenant connection registry
(`src/datasources/tenant.datasource.ts`, `TenantDataSourceProvider`) -/

/-- The environment variables the registry reads. -/
structure TenantEnv where
  mongodbUrl : Option String
  tenantDbPrefix : Option String
  deriving DecidableEq, Repr

/-- The injected base configuration (`datasources.config.mongoTenant`),
restricted to the fields the provider destructures. -/
structure DataSourceConfig where
  connector : Option String
  database : Option String
  name : Option String
  url : Option String
  deriving DecidableEq, Repr

/-- The configuration a created `juggler.DataSource` is built from; two
data-source objects are the same connection handle iff they were built from
the same creation, which this value model captures because `name` embeds the
raw tenant id of the creating call. -/
structure DataSource where
  name : String
  connector : String
  url : String
  database : String
  deriving DecidableEq, Repr

/-- Function `buildTenantDatabaseName(tenantId)` (in `src/utils/tenant.ts`):
`TENANT_DB_PREFIX ?? 'tenant'`, underscore, sanitized tenant id. -/
def buildTenantDatabaseName (env : TenantEnv) (tenantId : String) : String :=
  (env.tenantDbPrefix.getD "tenant") ++ "_" ++ sanitizeTenantId tenantId

/-- Method `TenantDataSourceProvider.buildConnectionUrl`: the configured URL (or the
`MONGODB_URL` environment variable) with its path replaced by the tenant
database name.  `new URL(...)`/`pathname` manipulation is modelled for a base
URL without a path component as string concatenation. -/
def buildConnectionUrl (env : TenantEnv) (rawUrl : Option String)
    (dbName : String) : Except String String :=
  match rawUrl.orElse (fun _ => env.mongodbUrl) with
  | none => .error "MONGODB_URL environment variable is not set"
  | some connectionUrl => .ok (connectionUrl ++ "/" ++ dbName)

/-- Method `TenantDataSourceProvider.buildTenantConfig`. -/
def buildTenantConfig (env : TenantEnv) (baseConfig : DataSourceConfig)
    (tenantId : String) : Except String DataSource :=
  let dbName := buildTenantDatabaseName env tenantId
  match buildConnectionUrl env baseConfig.url dbName with
  | .error e => .error e
  | .ok u =>
    .ok { name := "mongoTenant_" ++ tenantId
          connector := baseConfig.connector.getD "mongodb"
          url := u
          database := dbName }

/-- The module-level connection cache, keyed exactly as the source keys it. -/
abbrev RegistryCache := List (String × DataSource)

/-- The cache-consulting core of `TenantDataSourceProvider.value` (after
`extractTenantId`): on a cache miss, build and cache a new data source under
the tenant id used for the lookup; on a hit, return the cached one. -/
def registryGet (env : TenantEnv) (baseConfig : DataSourceConfig)
    (cache : RegistryCache) (tenantId : String) :
    Except String (DataSource × RegistryCache) :=
  match List.lookup tenantId cache with
  | some ds => .ok (ds, cache)
  | none =>
    match buildTenantConfig env baseConfig tenantId with
    | .error e => .error e
    | .ok ds => .ok (ds, (tenantId, ds) :: cache)

/-! ## Resource ownership guards (`src/controllers/chapters.controller.ts`) -/

/-- The fields of the persisted `Course` model the guards read.  `tenantId`
is optional in persisted data; absence is modelled by `""` (JS falsiness). -/
structure Course where
  tenantId : String
  deriving DecidableEq, Repr

/-- The persisted `Module` model (source name `Module`; renamed because Lean
reserves `Module` for the algebraic class), restricted to the read fields. -/
structure ModuleModel where
  courseId : String
  deriving DecidableEq, Repr

/-- The persisted `Chapter` model, restricted to the fields the guards read. -/
structure Chapter where
  moduleId : String
  deriving DecidableEq, Repr

/-- Method `ChaptersController.normalizeId`: ids are already strings in this model,
so the ObjectId-stringifying branch is the identity. -/
def normalizeId (id : String) : String := id

/-- Method `ChaptersController.ensureModuleAccess`.  Parameter `courseFindById` stands for
`courseRepository.findById`, with `none` meaning the repository throws its
entity-not-found error (HTTP 404). -/
def ensureModuleAccess (courseFindById : String → Option Course)
    (module : ModuleModel) (tenantId : String) : Except HttpErr Unit :=
  match courseFindById (normalizeId module.courseId) with
  | none => .error (.notFound "Entity not found: Course")
  | some course =>
    if course.tenantId = "" then
      .error (.badRequest "Course record is missing tenant context")
    else if sanitizeTenantId course.tenantId ≠ tenantId then
      .error (.forbidden "Target module does not belong to this tenant")
    else
      .ok ()

/-- Method `ChaptersController.ensureChapterAccess`. -/
def ensureChapterAccess (moduleFindById : String → Option ModuleModel)
    (courseFindById : String → Option Course) (chapter : Chapter)
    (moduleId tenantId : String) : Except HttpErr Unit :=
  if normalizeId chapter.moduleId ≠ normalizeId moduleId then
    .error (.forbidden "Chapter does not belong to the specified module")
  else
    match moduleFindById (normalizeId chapter.moduleId) with
    | none => .error (.notFound "Entity not found: Module")
    | some m => ensureModuleAccess courseFindById m tenantId

/-! ## Login (`src/controllers/auth.controller.ts`, `AuthController.login`) -/

/-- The fields of the persisted `User` model the login handler reads. -/
structure User where
  id : String
  tenantId : String
  password : String
  status : Option String
  deriving DecidableEq, Repr

/-- Method `AuthController.login`, as a function of the user lookup
(`userRepository.findOne` by normalized email), the bcrypt compare primitive,
the `x-tenant-id` header, and the request body.  The successful
`buildAuthResponse(user)` is abstracted to the authenticated user's id.  The
second component records whether `passwordHasher.comparePassword` was
invoked. -/
def login (findUserByEmail : String → Option User)
    (bcompare : String → String → Bool) (tenantHeader : Option String)
    (email password : String) : Except HttpErr String × Bool :=
  match extractTenantId tenantHeader with
  | .error e => (.error e, false)
  | .ok rawTenantId =>
    let tenantId := sanitizeTenantId rawTenantId
    let normalizedEmail := jsToLower email
    match findUserByEmail normalizedEmail with
    | none => (.error (.unauthorized "Invalid credentials"), false)
    | some user =>
      if tenantId ≠ user.tenantId then
        (.error (.forbidden "User does not belong to this tenant"), false)
      else if (match user.status with
               | some s => s ≠ "" && s ≠ "active"
               | none => false) then
        (.error (.forbidden "User account is not active"), false)
      else if ¬ comparePassword bcompare password user.password then
        (.error (.unauthorized "Invalid credentials"), true)
      else
        (.ok user.id, true)

/-! ## Reference procedures written from the specification's words -/

/-- The identity's maximum role rank under the total order
`student < instructor < tenantAdmin < superAdmin` (rank of the empty role
set is `0`, below every role). -/
def maxRoleRank (roles : List UserRole) : Nat :=
  roles.foldl (fun acc role => max acc (ROLE_HIERARCHY role)) 0

/-- The minimum rank among a set of allowed roles; `5` (above every role) is
the identity of `min`, returned only for the empty set, on which the
reference procedure never consults this value. -/
def minAllowedRank (roles : List UserRole) : Nat :=
  (roles.map ROLE_HIERARCHY).foldr min 5

/-- The five-step reference authorization procedure exactly as claim C3
states it: no identity → DENY; superAdmin → ALLOW; invocation tenant known
(present and nonempty) and differing from the identity's tenant → DENY;
empty allowed-roles → ALLOW; else ALLOW iff max identity rank ≥ min allowed
rank. -/
def specAuthorize (principal : Option Principal) (invocationTenant : Option String)
    (allowedRoles : List UserRole) : AuthorizationDecision :=
  match principal with
  | none => .deny
  | some p =>
    if (p.roles.getD []).contains .superAdmin then
      .allow
    else if (match invocationTenant with
             | some t => t ≠ "" && t != p.tenantId
             | none => false) then
      .deny
    else if allowedRoles.isEmpty then
      .allow
    else if minAllowedRank allowedRoles ≤ maxRoleRank (p.roles.getD []) then
      .allow
    else
      .deny

/-- Claim C3's procedure amended in its third step only: the tenant-mismatch
DENY additionally requires the identity's tenant id to be nonempty (the code
skips the tenant check for an identity that carries no tenant id). -/
def specAuthorizeAmended (principal : Option Principal)
    (invocationTenant : Option String) (allowedRoles : List UserRole) :
    AuthorizationDecision :=
  match principal with
  | none => .deny
  | some p =>
    if (p.roles.getD []).contains .superAdmin then
      .allow
    else if (match invocationTenant with
             | some t => t ≠ "" && p.tenantId ≠ "" && p.tenantId ≠ t
             | none => false) then
      .deny
    else if allowedRoles.isEmpty then
      .allow
    else if minAllowedRank allowedRoles ≤ maxRoleRank (p.roles.getD []) then
      .allow
    else
      .deny

/-- The concrete environment and base configuration used for the C1
registry scenario. -/
def envC1 : TenantEnv :=
  { mongodbUrl := some "mongodb://db", tenantDbPrefix := none }

def baseC1 : DataSourceConfig :=
  { connector := none, database := none, name := none, url := none }

/-- The data source the registry creates for raw tenant id `acme`. -/
def dsAcme : DataSource :=
  { name := "mongoTenant_acme", connector := "mongodb",
    url := "mongodb://db/tenant_acme", database := "tenant_acme" }

/-- The data source the registry creates for raw tenant id `ACME`. -/
def dsACME : DataSource :=
  { name := "mongoTenant_ACME", connector := "mongodb",
    url := "mongodb://db/tenant_acme", database := "tenant_acme" }

/-! ## Helper lemmas -/

theorem toNat_ofNat_valid (n : Nat) (h : n.isValidChar) :
    (Char.ofNat n).toNat = n := by
  simp [Char.ofNat, dif_pos h, Char.ofNatAux, Char.toNat, UInt32.toNat,
    BitVec.toNat_ofNatLt]

theorem char_toLower_toLower (c : Char) : c.toLower.toLower = c.toLower := by
  unfold Char.toLower
  by_cases h : c.toNat ≥ 65 ∧ c.toNat ≤ 90
  · rw [if_pos h]
    have hv : Nat.isValidChar (c.toNat + 32) := Or.inl (by omega)
    rw [toNat_ofNat_valid _ hv]
    rw [if_neg (by omega)]
  · rw [if_neg h, if_neg h]

theorem toLower_ne_hyphen (x : Char) (hx : x ≠ '-') : x.toLower ≠ '-' := by
  unfold Char.toLower
  by_cases h : x.toNat ≥ 65 ∧ x.toNat ≤ 90
  · rw [if_pos h]
    intro hc
    have hn := congrArg Char.toNat hc
    rw [toNat_ofNat_valid _ (Or.inl (by omega))] at hn
    have : ('-' : Char).toNat = 45 := by decide
    omega
  · rw [if_neg h]; exact hx

theorem sanitizeChar_idem (c : Char) :
    sanitizeChar (sanitizeChar c) = sanitizeChar c := by
  unfold sanitizeChar
  have hne : (if c = '-' then '_' else c) ≠ '-' := by
    split
    · decide
    · next h => exact h
  rw [if_neg (toLower_ne_hyphen _ hne)]
  exact char_toLower_toLower _

theorem sanitizeTenantId_idem (s : String) :
    sanitizeTenantId (sanitizeTenantId s) = sanitizeTenantId s := by
  unfold sanitizeTenantId
  simp [List.map_map]
  congr 1
  apply List.map_congr_left
  intro c _
  exact sanitizeChar_idem c

theorem maxRoleRank_le_four (roles : List UserRole) : maxRoleRank roles ≤ 4 := by
  unfold maxRoleRank
  suffices h : ∀ acc, acc ≤ 4 →
      roles.foldl (fun acc role => max acc (ROLE_HIERARCHY role)) acc ≤ 4 from
    h 0 (by omega)
  induction roles with
  | nil => intro acc h; simpa using h
  | cons r rest ih =>
    intro acc h
    simp only [List.foldl_cons]
    exact ih _ (by cases r <;> simp [ROLE_HIERARCHY] <;> omega)

theorem isRoleAllowed_eq_min_le_max (userRoles allowedRoles : List UserRole) :
    isRoleAllowed userRoles allowedRoles =
      decide (minAllowedRank allowedRoles ≤ maxRoleRank userRoles) := by
  induction allowedRoles with
  | nil =>
    have h := maxRoleRank_le_four userRoles
    simp [isRoleAllowed, minAllowedRank, maxRoleRank] at *
    omega
  | cons r rest ih =>
    simp only [isRoleAllowed, minAllowedRank, List.any_cons, List.map_cons,
      List.foldr_cons] at *
    rw [ih]
    by_cases h1 : ROLE_HIERARCHY r ≤ maxRoleRank userRoles <;>
      simp [maxRoleRank, min_le_iff, h1] at *

theorem string_append_left_cancel (s t1 t2 : String) (h : s ++ t1 = s ++ t2) :
    t1 = t2 := by
  have hd := congrArg String.data h
  simp [String.data_append] at hd
  cases t1
  cases t2
  exact congrArg String.mk hd

/-- Fields of a successfully built tenant data-source configuration. -/
theorem buildTenantConfig_ok_fields (env : TenantEnv) (base : DataSourceConfig)
    (t : String) (ds : DataSource) (h : buildTenantConfig env base t = .ok ds) :
    ds.name = "mongoTenant_" ++ t ∧
    ds.database = buildTenantDatabaseName env t := by
  simp only [buildTenantConfig] at h
  cases hu : buildConnectionUrl env base.url (buildTenantDatabaseName env t) with
  | error e => rw [hu] at h; cases h
  | ok u =>
    rw [hu] at h
    injection h with h
    subst h
    exact ⟨rfl, rfl⟩

/-! ## Claim theorems -/

/-- C9: for every valid raw tenant id `t` (nonempty, matching the allowed
character pattern), `sanitizeTenantId (sanitizeTenantId t) =
sanitizeTenantId t`. -/
theorem C9_sanitize_idempotent (t : String) (_hvalid : tenantIdPatternTest t = true) :
    sanitizeTenantId (sanitizeTenantId t) = sanitizeTenantId t :=
  sanitizeTenantId_idem t

/-- Witness for C9 at the concrete valid raw tenant id `Acme-LMS-01`. -/
theorem C9_sanitize_idempotent_witness :
    tenantIdPatternTest "Acme-LMS-01" = true ∧
    sanitizeTenantId (sanitizeTenantId "Acme-LMS-01") =
      sanitizeTenantId "Acme-LMS-01" :=
  ⟨by decide, C9_sanitize_idempotent "Acme-LMS-01" (by decide)⟩

/-- C8: hashing rejects empty plaintext with an error, and password
comparison returns `false` — it is a total Boolean function, so it never
throws — whenever the plaintext or the digest is empty, for every bcrypt
primitive. -/
theorem C8_password_empty_inputs (bhash : Nat → String → String)
    (bcompare : String → String → Bool) (rounds : Nat) (plain hashed : String) :
    hashPassword bhash rounds "" = .error "Password cannot be empty" ∧
    (plain = "" ∨ hashed = "" →
      comparePassword bcompare plain hashed = false) := by
  constructor
  · simp [hashPassword]
  · intro h
    rcases h with h | h <;> simp [comparePassword, h]

/-- Witness for C8 at concrete inputs: empty plaintext against a digest, and
a plaintext against an empty digest, under a bcrypt stub that always accepts. -/
theorem C8_password_empty_inputs_witness :
    hashPassword (fun _ p => p) 10 "" = .error "Password cannot be empty" ∧
    comparePassword (fun _ _ => true) "" "somedigest" = false ∧
    comparePassword (fun _ _ => true) "secret" "" = false :=
  ⟨(C8_password_empty_inputs (fun _ p => p) (fun _ _ => true) 10 "" "somedigest").1,
   (C8_password_empty_inputs (fun _ p => p) (fun _ _ => true) 10 "" "somedigest").2
     (Or.inl rfl),
   (C8_password_empty_inputs (fun _ p => p) (fun _ _ => true) 10 "secret" "").2
     (Or.inr rfl)⟩

/-- C5: the token service's verify rejects signature mismatch, expiry,
structurally non-object (string) payload, and token-type mismatch, and every
failure surfaces as the single opaque `Invalid or expired token` error. -/
theorem C5_verify_failures_uniform (tok : Token) (secret : String)
    (expected : TokenType) :
    (tok.secret ≠ secret →
      verifyToken tok secret expected =
        .error (.unauthorized "Invalid or expired token")) ∧
    (tok.expired = true →
      verifyToken tok secret expected =
        .error (.unauthorized "Invalid or expired token")) ∧
    (∀ s, tok.payload = .str s →
      verifyToken tok secret expected =
        .error (.unauthorized "Invalid or expired token")) ∧
    (∀ p, tok.payload = .obj p → p.tokenType ≠ some expected →
      verifyToken tok secret expected =
        .error (.unauthorized "Invalid or expired token")) ∧
    (∀ e, verifyToken tok secret expected = .error e →
      e = .unauthorized "Invalid or expired token") := by
  refine ⟨?_, ?_, ?_, ?_, ?_⟩
  · intro h
    simp [verifyToken, verifyTokenInner, jwtVerify, h]
  · intro h
    by_cases hs : tok.secret = secret <;>
      simp [verifyToken, verifyTokenInner, jwtVerify, hs, h]
  · intro s h
    by_cases hs : tok.secret = secret <;> by_cases he : tok.expired <;>
      simp [verifyToken, verifyTokenInner, jwtVerify, hs, he, h]
  · intro p h hty
    by_cases hs : tok.secret = secret <;> by_cases he : tok.expired <;>
      simp [verifyToken, verifyTokenInner, jwtVerify, hs, he, h, hty]
  · intro e h
    unfold verifyToken at h
    split at h
    · injection h with h
      exact h.symm
    · exact absurd h (by simp)

/-- Witness for C5: a token signed under a different secret, an expired
token, a string-payload token, and a refresh-typed token all yield exactly
the opaque error. -/
theorem C5_verify_failures_uniform_witness :
    verifyToken ⟨.obj ⟨"u", "e", "t", none, none, none, some .access⟩, "other", false⟩
        "secret" .access = .error (.unauthorized "Invalid or expired token") ∧
    verifyToken ⟨.obj ⟨"u", "e", "t", none, none, none, some .access⟩, "secret", true⟩
        "secret" .access = .error (.unauthorized "Invalid or expired token") ∧
    verifyToken ⟨.str "oops", "secret", false⟩
        "secret" .access = .error (.unauthorized "Invalid or expired token") ∧
    verifyToken ⟨.obj ⟨"u", "e", "t", none, none, none, some .refresh⟩, "secret", false⟩
        "secret" .access = .error (.unauthorized "Invalid or expired token") :=
  ⟨(C5_verify_failures_uniform _ _ _).1 (by decide),
   (C5_verify_failures_uniform _ _ _).2.1 (by decide),
   (C5_verify_failures_uniform _ _ _).2.2.1 "oops" (by decide),
   (C5_verify_failures_uniform _ _ _).2.2.2.1
     ⟨"u", "e", "t", none, none, none, some .refresh⟩ (by decide) (by decide)⟩

/-- C6: verifying the issued pair's access token as an access token yields
claims with the identity's `sub`, `tenantId` and `roles`; verifying the same
access token as a refresh token fails (either the refresh secret differs, or
the `tokenType` discriminator mismatches). -/
theorem C6_token_round_trip (svc : JwtTokenService) (profile : LmsUserProfile) :
    verifyAccessToken svc (generateTokenPair svc profile).accessToken =
      .ok (buildPayload profile .access) ∧
    (buildPayload profile .access).sub = profile.id ∧
    (buildPayload profile .access).tenantId = profile.tenantId ∧
    (buildPayload profile .access).roles = some profile.roles ∧
    verifyRefreshToken svc (generateTokenPair svc profile).accessToken =
      .error (.unauthorized "Invalid or expired token") := by
  refine ⟨?_, rfl, rfl, rfl, ?_⟩
  · simp [verifyAccessToken, verifyToken, verifyTokenInner, jwtVerify,
      generateTokenPair, jwtSign, buildPayload]
  · by_cases h : svc.tokenSecret = svc.refreshSecret <;>
      simp [verifyRefreshToken, verifyToken, verifyTokenInner, jwtVerify,
        generateTokenPair, jwtSign, buildPayload, h]

/-- C4: a bearer token that verifies as an access token but whose `tenantId`
claim sanitizes differently from the sanitized header tenant fails with
`Forbidden` (`Token tenant mismatch`); `Unauthorized` is what a missing
authorization header or an undecodable token produces. -/
theorem C4_tenant_mismatch_forbidden (jwtOf : String → Option Token)
    (secret : String) (req : StrategyRequest) (auth tokenStr rawT : String)
    (tok : Token) (p : JwtPayload)
    (hauth : req.authorization = some auth)
    (hsplit : jsSplit auth ' ' = ["Bearer", tokenStr])
    (hjwt : jwtOf tokenStr = some tok)
    (hsec : tok.secret = secret) (hexp : tok.expired = false)
    (hpay : tok.payload = .obj p)
    (hhdr : extractTenantId req.tenantHeader = .ok rawT)
    (hcarry : p.tenantId ≠ "")
    (hmm : sanitizeTenantId p.tenantId ≠ sanitizeTenantId rawT) :
    authenticate jwtOf secret req = .error (.forbidden "Token tenant mismatch") ∧
    (∀ req' : StrategyRequest, req'.authorization = none →
      authenticate jwtOf secret req' =
        .error (.unauthorized "Authorization header not found")) ∧
    (∀ (req' : StrategyRequest) (auth' tokenStr' : String),
      req'.authorization = some auth' →
      jsSplit auth' ' ' = ["Bearer", tokenStr'] →
      jwtOf tokenStr' = none →
      authenticate jwtOf secret req' =
        .error (.unauthorized "Invalid access token")) := by
  refine ⟨?_, ?_, ?_⟩
  · simp [authenticate, extractToken, hauth, hsplit, hjwt, jwtVerify, hsec,
      hexp, hpay, hhdr, hcarry, hmm]
  · intro req' h
    simp [authenticate, extractToken, h]
  · intro req' auth' tokenStr' h hs hj
    simp [authenticate, extractToken, h, hs, hj]

/-- Witness for C4 at a concrete request: access token for tenant `t1`
against header `x-tenant-id: t2`. -/
theorem C4_tenant_mismatch_forbidden_witness :
    authenticate
      (fun s => if s = "tok" then
        some ⟨.obj ⟨"u1", "u@x", "t1", some [.student], none, none, some .access⟩,
          "secret", false⟩
        else none)
      "secret" ⟨some "Bearer tok", some "t2"⟩ =
      .error (.forbidden "Token tenant mismatch") :=
  (C4_tenant_mismatch_forbidden
    (fun s => if s = "tok" then
      some ⟨.obj ⟨"u1", "u@x", "t1", some [.student], none, none, some .access⟩,
        "secret", false⟩
      else none)
    "secret" ⟨some "Bearer tok", some "t2"⟩ "Bearer tok" "tok" "t2"
    ⟨.obj ⟨"u1", "u@x", "t1", some [.student], none, none, some .access⟩,
      "secret", false⟩
    ⟨"u1", "u@x", "t1", some [.student], none, none, some .access⟩
    rfl (by decide) (by decide) (by decide) (by decide) (by decide) (by decide)
    (by decide) (by decide)).1

/-- C10: when the stored user's tenant differs from the sanitized header
tenant, login fails `Forbidden` with the password comparison never invoked,
so the outcome is identical for any two supplied passwords. -/
theorem C10_login_tenant_gate (findUser : String → Option User)
    (bcompare : String → String → Bool) (hdr : Option String)
    (email p1 p2 rawT : String) (u : User)
    (hhdr : extractTenantId hdr = .ok rawT)
    (huser : findUser (jsToLower email) = some u)
    (hmm : sanitizeTenantId rawT ≠ u.tenantId) :
    login findUser bcompare hdr email p1 =
      (.error (.forbidden "User does not belong to this tenant"), false) ∧
    login findUser bcompare hdr email p1 =
      login findUser bcompare hdr email p2 := by
  have h1 : ∀ pw, login findUser bcompare hdr email pw =
      (.error (.forbidden "User does not belong to this tenant"), false) := by
    intro pw
    simp [login, hhdr, huser, hmm]
  exact ⟨h1 p1, (h1 p1).trans (h1 p2).symm⟩

/-- Witness for C10 at a concrete user of tenant `t2` against header `T-1`,
with a correct and an incorrect password. -/
theorem C10_login_tenant_gate_witness :
    login (fun e => if e = "u@x.com" then some ⟨"id1", "t2", "hash", none⟩ else none)
      (fun _ _ => true) (some "T-1") "U@X.com" "rightpw" =
      (.error (.forbidden "User does not belong to this tenant"), false) ∧
    login (fun e => if e = "u@x.com" then some ⟨"id1", "t2", "hash", none⟩ else none)
      (fun _ _ => true) (some "T-1") "U@X.com" "rightpw" =
    login (fun e => if e = "u@x.com" then some ⟨"id1", "t2", "hash", none⟩ else none)
      (fun _ _ => true) (some "T-1") "U@X.com" "wrongpw" :=
  C10_login_tenant_gate _ _ _ "U@X.com" "rightpw" "wrongpw" "T-1"
    ⟨"id1", "t2", "hash", none⟩ (by decide) (by decide) (by decide)

/-- C7: in the chapter/module ownership guards, a path/data parent mismatch
is `Forbidden`; a resolved ancestor course of another tenant is `Forbidden`;
an ancestor course with no tenant id is `BadRequest`, a status distinct from
the ownership-mismatch one. -/
theorem C7_guard_statuses (moduleFind : String → Option ModuleModel)
    (courseFind : String → Option Course) (ch : Chapter)
    (moduleId tenantId : String) (m : ModuleModel) (course : Course) :
    (ch.moduleId ≠ moduleId →
      ensureChapterAccess moduleFind courseFind ch moduleId tenantId =
        .error (.forbidden "Chapter does not belong to the specified module")) ∧
    (ch.moduleId = moduleId → moduleFind ch.moduleId = some m →
      ensureChapterAccess moduleFind courseFind ch moduleId tenantId =
        ensureModuleAccess courseFind m tenantId) ∧
    (courseFind m.courseId = some course → course.tenantId ≠ "" →
      sanitizeTenantId course.tenantId ≠ tenantId →
      ensureModuleAccess courseFind m tenantId =
        .error (.forbidden "Target module does not belong to this tenant")) ∧
    (courseFind m.courseId = some course → course.tenantId = "" →
      ensureModuleAccess courseFind m tenantId =
        .error (.badRequest "Course record is missing tenant context")) ∧
    (∀ msg1 msg2, HttpErr.badRequest msg1 ≠ HttpErr.forbidden msg2) := by
  refine ⟨?_, ?_, ?_, ?_, ?_⟩
  · intro h
    simp [ensureChapterAccess, normalizeId, h]
  · intro h hm
    rw [h] at hm
    simp [ensureChapterAccess, normalizeId, h, hm]
  · intro hc ht hmm
    simp [ensureModuleAccess, normalizeId, hc, ht, hmm]
  · intro hc ht
    simp [ensureModuleAccess, normalizeId, hc, ht]
  · intro msg1 msg2 h
    exact absurd h (by simp)

/-- Witness for C7: a chapter under the wrong module, a module whose course
belongs to tenant `T-2` checked against caller tenant `t1`, and a module
whose course carries no tenant id. -/
theorem C7_guard_statuses_witness :
    ensureChapterAccess (fun i => if i = "m1" then some ⟨"c1"⟩ else none)
      (fun i => if i = "c1" then some ⟨"T-2"⟩ else none) ⟨"m1"⟩ "m2" "t1" =
      .error (.forbidden "Chapter does not belong to the specified module") ∧
    ensureModuleAccess (fun i => if i = "c1" then some ⟨"T-2"⟩ else none)
      ⟨"c1"⟩ "t1" =
      .error (.forbidden "Target module does not belong to this tenant") ∧
    ensureModuleAccess (fun i => if i = "c0" then some ⟨""⟩ else none)
      ⟨"c0"⟩ "t1" =
      .error (.badRequest "Course record is missing tenant context") :=
  ⟨(C7_guard_statuses (fun i => if i = "m1" then some ⟨"c1"⟩ else none)
      (fun i => if i = "c1" then some ⟨"T-2"⟩ else none) ⟨"m1"⟩ "m2" "t1"
      ⟨"c1"⟩ ⟨"T-2"⟩).1 (by decide),
   (C7_guard_statuses (fun i => if i = "m1" then some ⟨"c1"⟩ else none)
      (fun i => if i = "c1" then some ⟨"T-2"⟩ else none) ⟨"m1"⟩ "m2" "t1"
      ⟨"c1"⟩ ⟨"T-2"⟩).2.2.1 (by decide) (by decide) (by decide),
   (C7_guard_statuses (fun i => if i = "c0" then some ⟨""⟩ else none)
      (fun i => if i = "c0" then some ⟨""⟩ else none) ⟨"m1"⟩ "m2" "t1"
      ⟨"c0"⟩ ⟨""⟩).2.2.2.1 (by decide) rfl⟩

/-- C3 counterexample: for an identity whose tenant id is the empty string,
with a known invocation tenant `t1` and no declared roles requirement, the
authorizer ALLOWs while the claim's five-step reference procedure DENYs (its
step 3 fires because `""` differs from `t1`), so the authorizer's decision is
not equal to the claimed procedure. -/
theorem C3_counterexample :
    authorize (some ⟨"", some [.student]⟩) (some "t1") [] = .allow ∧
    specAuthorize (some ⟨"", some [.student]⟩) (some "t1") [] = .deny := by
  constructor <;> decide

/-- C3 (amended): the authorizer's decision equals the five-step procedure
with step 3 weakened to require a nonempty identity tenant id: known
invocation tenant AND nonempty identity tenant AND difference → DENY. -/
theorem C3_authorize_matches_amended_procedure (principal : Option Principal)
    (invocationTenant : Option String) (allowedRoles : List UserRole) :
    authorize principal invocationTenant allowedRoles =
      specAuthorizeAmended principal invocationTenant allowedRoles := by
  cases principal with
  | none => rfl
  | some p =>
    simp [authorize, specAuthorizeAmended, isRoleAllowed_eq_min_le_max]

/-- C2: the per-request strategy does not inspect the `tokenType` claim — a
token carrying `tokenType: refresh` but signed with the access secret is
accepted by `JWTStrategy.authenticate` and yields an identity, even though
the token service's own access-token verification rejects the very same
token; the claim's required behavior holds only in the token service. -/
theorem C2_strategy_accepts_refresh_typed_token :
    authenticate
      (fun s => if s = "tok" then
        some ⟨.obj ⟨"u1", "u@x", "t1", some [.student], none, none, some .refresh⟩,
          "access-secret", false⟩
        else none)
      "access-secret" ⟨some "Bearer tok", some "t1"⟩ =
      .ok ⟨"u1", "u@x", "t1", [.student], none, some "u@x"⟩ ∧
    verifyToken
      ⟨.obj ⟨"u1", "u@x", "t1", some [.student], none, none, some .refresh⟩,
        "access-secret", false⟩ "access-secret" .access =
      .error (.unauthorized "Invalid or expired token") := by
  constructor <;> decide

/-- C1 counterexample: `acme` and `ACME` sanitize identically, yet the
registry — which keys its cache by the raw tenant id — returns two distinct
connection objects for them, not the identical cached one. -/
theorem C1_counterexample :
    sanitizeTenantId "ACME" = sanitizeTenantId "acme" ∧
    registryGet envC1 baseC1 [] "acme" = .ok (dsAcme, [("acme", dsAcme)]) ∧
    registryGet envC1 baseC1 [("acme", dsAcme)] "ACME" =
      .ok (dsACME, [("ACME", dsACME), ("acme", dsAcme)]) ∧
    dsAcme ≠ dsACME := by
  refine ⟨by decide, by decide, by decide, by decide⟩

/-- C1 (amended): the registry caches by the raw tenant id.  For two raw ids
not yet cached that differ in raw form but share a sanitized form, the two
gets create two distinct connection objects — both targeting the same tenant
database name — and subsequent gets for either raw id return its cached
object unchanged. -/
theorem C1_registry_raw_key (env : TenantEnv) (base : DataSourceConfig)
    (cache : RegistryCache) (t1 t2 : String) (d1 d2 : DataSource)
    (c1 c2 : RegistryCache)
    (hne : t1 ≠ t2) (hsan : sanitizeTenantId t1 = sanitizeTenantId t2)
    (hfresh1 : List.lookup t1 cache = none)
    (hfresh2 : List.lookup t2 cache = none)
    (h1 : registryGet env base cache t1 = .ok (d1, c1))
    (h2 : registryGet env base c1 t2 = .ok (d2, c2)) :
    d1 ≠ d2 ∧ d1.database = d2.database ∧
    registryGet env base c2 t1 = .ok (d1, c2) ∧
    registryGet env base c2 t2 = .ok (d2, c2) := by
  unfold registryGet at h1
  rw [hfresh1] at h1
  cases hb1 : buildTenantConfig env base t1 with
  | error e => rw [hb1] at h1; cases h1
  | ok ds1 =>
    rw [hb1] at h1
    injection h1 with h1
    obtain ⟨hd1, hc1⟩ := Prod.mk.inj h1
    rw [hd1] at hb1 hc1
    subst hc1
    unfold registryGet at h2
    have ht21 : (t2 == t1) = false := beq_eq_false_iff_ne.mpr (Ne.symm hne)
    have hlook2 : List.lookup t2 ((t1, d1) :: cache) = none := by
      simp [List.lookup, ht21, hfresh2]
    rw [hlook2] at h2
    cases hb2 : buildTenantConfig env base t2 with
    | error e => rw [hb2] at h2; cases h2
    | ok ds2 =>
      rw [hb2] at h2
      injection h2 with h2
      obtain ⟨hd2, hc2⟩ := Prod.mk.inj h2
      rw [hd2] at hb2 hc2
      subst hc2
      obtain ⟨hn1, hdb1⟩ := buildTenantConfig_ok_fields env base t1 d1 hb1
      obtain ⟨hn2, hdb2⟩ := buildTenantConfig_ok_fields env base t2 d2 hb2
      have ht12 : (t1 == t2) = false := beq_eq_false_iff_ne.mpr hne
      refine ⟨?_, ?_, ?_, ?_⟩
      · intro hEq
        apply hne
        apply string_append_left_cancel "mongoTenant_"
        rw [← hn1, ← hn2, hEq]
      · rw [hdb1, hdb2]
        unfold buildTenantDatabaseName
        rw [hsan]
      · unfold registryGet
        simp [List.lookup, ht12]
      · unfold registryGet
        simp [List.lookup]

/-- Witness for C1 (amended) at the concrete pair `acme` / `ACME` starting
from an empty cache. -/
theorem C1_registry_raw_key_witness :
    dsAcme ≠ dsACME ∧ dsAcme.database = dsACME.database ∧
    registryGet envC1 baseC1 [("ACME", dsACME), ("acme", dsAcme)] "acme" =
      .ok (dsAcme, [("ACME", dsACME), ("acme", dsAcme)]) ∧
    registryGet envC1 baseC1 [("ACME", dsACME), ("acme", dsAcme)] "ACME" =
      .ok (dsACME, [("ACME", dsACME), ("acme", dsAcme)]) :=
  C1_registry_raw_key envC1 baseC1 [] "acme" "ACME" dsAcme dsACME
    [("acme", dsAcme)] [("ACME", dsACME), ("acme", dsAcme)]
    (by decide) (by decide) (by decide) (by decide) (by decide) (by decide)
